import Mathlib

/-!
Verification development for the presence-relay service in `src/main.py`.

The embedding models the JSON dictionaries the Python code builds as
association lists of string keys (`Dict`), with Python dictionary
assignment modelled by `setKey` (replace-in-place or append, matching
CPython insertion-order semantics).  Machine-level concerns do not arise:
all values are unbounded integers and strings, as in Python.
-/

set_option autoImplicit false

namespace PresenceExpose

/-- JSON values, the codomain of every serializable dictionary built in
`src/main.py`. -/
inductive J where
  | null
  | bool (b : Bool)
  | num (n : Int)
  | str (s : String)
  | arr (xs : List J)
  | obj (kvs : List (String × J))

/-- A Python dictionary with string keys, in insertion order. -/
abbrev Dict := List (String × J)

/-- Python dictionary assignment `d[k] = v`: replace the value in place when
the key exists, otherwise append the new pair at the end. -/
def setKey : Dict → String → J → Dict
  | [], k, v => [(k, v)]
  | (k', v') :: rest, k, v =>
      if k' = k then (k, v) :: rest else (k', v') :: setKey rest k v

/-- Python dictionary lookup `d.get(k)`. -/
def lookupKey (d : Dict) (k : String) : Option J :=
  (d.find? (fun p => p.1 == k)).map Prod.snd

/-- Python membership test `k in d`. -/
def hasKey (d : Dict) (k : String) : Bool :=
  (d.find? (fun p => p.1 == k)).isSome

/-! ## Source activity model (`format_activity`, src/main.py lines 54-200)

The Python code receives heterogeneous `discord.py` activity objects and
probes them dynamically (`isinstance` dispatch plus `hasattr` checks on
the optional attributes).  `SrcActivity` carries the class tag the
`isinstance` chain dispatches on and every attribute the function probes;
an `Option` field set to `none` stands for an attribute that is missing or
holds Python `None`, so the `hasattr(a, f) and a.f` guards become
truthiness tests on the option. -/

/-- The concrete class of the activity object, i.e. what the `isinstance`
chain in `format_activity` dispatches on.  `activity` is a plain
`discord.Activity`, whose branch is selected by the numeric type code. -/
inductive ActClass where
  | game
  | streaming
  | spotify
  | activity
  | custom
deriving DecidableEq

/-- The `activity.emoji` attribute of a custom status. -/
structure SrcEmoji where
  name : String
  id : Option Int
  animated : Bool

/-- The `activity.flags` attribute: either already an `int`, an enum-like
object with a `.value`, or something unexpected (logged and dropped). -/
inductive FlagsRep where
  | int (n : Int)
  | enum (n : Int)
  | weird

/-- The generic `activity.party` attribute when it is a `dict`: the code
only reads the `id` and `size` keys; `other` records whether the dict has
any further key (so that Python truthiness of the dict is representable). -/
structure PartyDict where
  pid : Option J
  psize : Option J
  other : Bool

/-- One raw activity object as `format_activity` sees it.  Timestamps are
already in milliseconds (the source converts `datetime` via
`int(ts.timestamp() * 1000)`).  `stop` models the `end` attribute (`end`
is a reserved word in Lean). -/
structure SrcActivity where
  cls : ActClass
  /-- `activity.type.value` -/
  atype : Int
  name : Option String
  start : Option Int
  stop : Option Int
  details : Option String
  state : Option String
  /-- `discord.Streaming.url` -/
  url : Option String
  /-- `discord.Spotify.title` -/
  title : Option String
  /-- `discord.Spotify.artists` -/
  artists : List String
  /-- `discord.Spotify.album` -/
  album : Option String
  /-- `discord.Spotify.album_cover_url` -/
  album_cover_url : Option String
  /-- `discord.Spotify.party_id` -/
  party_id : Option String
  /-- `discord.Spotify.track_id` -/
  track_id : Option String
  emoji : Option SrcEmoji
  large_image_url : Option String
  large_image_text : Option String
  small_image_url : Option String
  small_image_text : Option String
  party : Option PartyDict
  flags : Option FlagsRep

/-- Python truthiness of an optional string attribute:
`hasattr(a, f) and a.f` is true exactly for a present, non-empty string. -/
def truthyS : Option String → Bool
  | some s => !s.isEmpty
  | none => false

/-- `None`-tolerant direct attribute read (`discord.Streaming.details` and
friends are assigned into the dict without a truthiness guard). -/
def jOfOptStr : Option String → J
  | some s => J.str s
  | none => J.null

/-- Lines 66-71: collect `start`/`end` into the `timestamps` dict when the
attributes exist and are truthy. -/
def collectTimestamps (a : SrcActivity) : Dict :=
  (match a.start with
   | some ms => [("start", J.num ms)]
   | none => []) ++
  (match a.stop with
   | some ms => [("end", J.num ms)]
   | none => [])

/-- Lines 76-79 / 111-114 / 135-138: the guarded `details`/`state`
passthrough shared by the game, watching and competing branches. -/
def detailsStatePassthrough (a : SrcActivity) (d : Dict) : Dict :=
  let d1 := match a.details with
    | some s => if !s.isEmpty then setKey d "details" (J.str s) else d
    | none => d
  match a.state with
  | some s => if !s.isEmpty then setKey d1 "state" (J.str s) else d1
  | none => d1

/-- Lines 90-93: the Spotify branch builds its `assets` dict from
`album_cover_url` and `album`. -/
def spotifyAssets (a : SrcActivity) : Dict :=
  match a.album_cover_url with
  | some u =>
      if !u.isEmpty then
        [("large_image", J.str u), ("large_text", jOfOptStr a.album)]
      else []
  | none => []

/-- Line 101: `{"id": activity.party_id} if activity.party_id else None`. -/
def spotifyParty (a : SrcActivity) : J :=
  match a.party_id with
  | some pid => if !pid.isEmpty then J.obj [("id", J.str pid)] else J.null
  | none => J.null

/-- Lines 120-127: the emoji sub-dictionary of a custom status. -/
def emojiDict (e : SrcEmoji) : J :=
  J.obj [("name", J.str e.name),
         ("id", match e.id with
                | some i => if i = 0 then J.null else J.str (toString i)
                | none => J.null),
         ("animated", J.bool e.animated)]

/-- Lines 74-138: the type-specific branch of `format_activity`.  Takes the
dict built so far and the collected timestamps, returns both (the custom
status branch resets the timestamps to empty, line 129). -/
def typeBranch (a : SrcActivity) (d : Dict) (ts : Dict) : Dict × Dict :=
  match a.cls with
  | ActClass.game => (detailsStatePassthrough a d, ts)
  | ActClass.streaming =>
      (setKey (setKey (setKey d "url" (jOfOptStr a.url))
          "details" (jOfOptStr a.details)) "state" (jOfOptStr a.state), ts)
  | ActClass.spotify =>
      let d1 := setKey d "type" (J.num 2)
      let d2 := setKey d1 "details" (jOfOptStr a.title)
      let d3 := setKey d2 "state" (J.str (String.intercalate "; " a.artists))
      let d4 := setKey d3 "assets" (J.obj (spotifyAssets a))
      let d5 := setKey d4 "album" (jOfOptStr a.album)
      let d6 := setKey d5 "party" (spotifyParty a)
      let d7 := setKey d6 "sync_id" (jOfOptStr a.track_id)
      (setKey d7 "name" (J.str "Spotify"), ts)
  | ActClass.activity =>
      if a.atype = 3 then (detailsStatePassthrough a d, ts)
      else if a.atype = 5 then (detailsStatePassthrough a d, ts)
      else (d, ts)
  | ActClass.custom =>
      let d1 := setKey d "state" (jOfOptStr a.state)
      let d2 := setKey d1 "emoji"
        (match a.emoji with
         | some e => emojiDict e
         | none => J.null)
      (d2, [])

/-- Lines 156-169: the generic `assets` dict built from the
`large_image_url`/`small_image_url` attribute pairs. -/
def genericAssets (a : SrcActivity) : Dict :=
  (match a.large_image_url with
   | some u =>
       if !u.isEmpty then
         ("large_image", J.str u) ::
           (match a.large_image_text with
            | some t => if !t.isEmpty then [("large_text", J.str t)] else []
            | none => [])
       else []
   | none => []) ++
  (match a.small_image_url with
   | some u =>
       if !u.isEmpty then
         ("small_image", J.str u) ::
           (match a.small_image_text with
            | some t => if !t.isEmpty then [("small_text", J.str t)] else []
            | none => [])
       else []
   | none => [])

/-- Lines 171-183: the generic `party` sub-dict built from the `id` and
`size` keys of a truthy `activity.party` dict. -/
def genericPartyData (p : PartyDict) : Dict :=
  (match p.pid with
   | some v => [("id", v)]
   | none => []) ++
  (match p.psize with
   | some v => [("size", v)]
   | none => [])

/-- Lines 146-151: attach the generic `details` only when the attribute is
truthy and the key is still absent from the dict. -/
def genericDetailsStep (a : SrcActivity) (d : Dict) : Dict :=
  match a.details with
  | some s =>
      if !s.isEmpty && !hasKey d "details" then setKey d "details" (J.str s) else d
  | none => d

/-- Lines 152-154: the generic `state` fill is deliberately disabled in
the source — the guarded branch executes `pass` with the assignment
commented out — so this step never writes anything. -/
def genericStateStep (_ : SrcActivity) (d : Dict) : Dict := d

/-- Lines 156-169: attach the generic `assets` dict whenever it is
non-empty (the source performs a plain assignment here, with no
already-present check). -/
def genericAssetsStep (a : SrcActivity) (d : Dict) : Dict :=
  if !(genericAssets a).isEmpty then setKey d "assets" (J.obj (genericAssets a)) else d

/-- Lines 171-183: attach the generic `party` data built from a truthy
party dict whenever it is non-empty (plain assignment, no
already-present check). -/
def genericPartyStep (a : SrcActivity) (d : Dict) : Dict :=
  match a.party with
  | some p =>
      if (p.pid.isSome || p.psize.isSome || p.other)
          && !(genericPartyData p).isEmpty then
        setKey d "party" (J.obj (genericPartyData p))
      else d
  | none => d

/-- Lines 185-199: attach `flags` normalized to its underlying integer,
whether the attribute is a raw int or an enum-like value; anything else is
logged and dropped. -/
def genericFlagsStep (a : SrcActivity) (d : Dict) : Dict :=
  match a.flags with
  | some (FlagsRep.int n) => setKey d "flags" (J.num n)
  | some (FlagsRep.enum n) => setKey d "flags" (J.num n)
  | some FlagsRep.weird => d
  | none => d

/-- Lines 144-199: the generic fill run after the type-specific branch, as
the sequence of the four statements above. -/
def genericFill (a : SrcActivity) (d : Dict) : Dict :=
  genericFlagsStep a (genericPartyStep a (genericAssetsStep a (genericStateStep a (genericDetailsStep a d))))

/-- The dict state right after the type-specific branch (and the possibly
reset timestamps), before the common optional fields are attached. -/
def typeStage (a : SrcActivity) : Dict × Dict :=
  typeBranch a [("type", J.num a.atype), ("name", jOfOptStr a.name)] (collectTimestamps a)

/-- `format_activity` (src/main.py lines 54-200): base dict, timestamp
collection, type-specific branch, then `timestamps` attachment and the
generic fill. -/
def format_activity (a : SrcActivity) : Dict :=
  let r := typeStage a
  let d1 := if !r.2.isEmpty then setKey r.1 "timestamps" (J.obj r.2) else r.1
  genericFill a d1

/-- Attribute layouts that can actually reach `format_activity`.  The two
branches that build composite fields without `hasattr` guards are pinned
to the attribute sets of the concrete `discord.py` classes they dispatch
on: `discord.Spotify` exposes `title`, `artists`, `album`,
`album_cover_url`, `party_id` and `track_id` but none of the generic
optional attributes the later fill step probes (`details`, `state`,
`large_image_url`, `small_image_url`, `party`, `flags`), and
`discord.CustomActivity` exposes only `name`, `state` and `emoji` among
the probed attributes.  Other classes are unconstrained: they are only
probed through `hasattr` guards, which the `Option` fields model
directly. -/
def WFActivity (a : SrcActivity) : Prop :=
  (a.cls = ActClass.spotify →
    a.details = none ∧ a.state = none ∧ a.large_image_url = none
    ∧ a.small_image_url = none ∧ a.party = none ∧ a.flags = none) ∧
  (a.cls = ActClass.custom →
    a.details = none ∧ a.large_image_url = none ∧ a.small_image_url = none
    ∧ a.party = none ∧ a.flags = none)

/-! ## Presence snapshots (`format_presence`, src/main.py lines 203-268) -/

/-- The identity attributes of a `discord.User`: `avatar` already holds the
`avatar.url` when an avatar exists, `public_flags` its `.value`. -/
structure SrcUser where
  id : Int
  name : String
  discriminator : String
  avatar : Option String
  bot : Bool
  public_flags : Int

/-- A `discord.Member`: its user identity plus the live presence
attributes read by `format_presence`.  Statuses are modelled by their
`str(...)` rendering, so the offline test `member.status ==
discord.Status.offline` becomes a comparison with `"offline"`. -/
structure SrcMember where
  user : SrcUser
  status : String
  activities : List SrcActivity
  desktop_status : String
  mobile_status : String
  web_status : String

/-- Lines 217-224 / 237-243: the `discord_user` sub-dictionary, filled from
the available user object or from the sentinel `"unknown"` identity when
none exists. -/
def userDict : Option SrcUser → Dict
  | some u =>
      [("id", J.str (toString u.id)),
       ("username", J.str u.name),
       ("discriminator", J.str u.discriminator),
       ("avatar", jOfOptStr u.avatar),
       ("bot", J.bool u.bot),
       ("public_flags", J.num u.public_flags)]
  | none =>
      [("id", J.str "unknown"),
       ("username", J.str "unknown"),
       ("discriminator", J.str "0000"),
       ("avatar", J.null),
       ("bot", J.bool false),
       ("public_flags", J.num 0)]

/-- Lines 214-232: the canonical offline snapshot, built when the member is
missing or its status is offline.  `user_obj` is the member when present,
else the fallback user, else nothing. -/
def offline_presence (user_obj : Option SrcUser) : Dict :=
  [("discord_user", J.obj (userDict user_obj)),
   ("discord_status", J.str "offline"),
   ("activities", J.arr []),
   ("client_status", J.obj []),
   ("active_on_discord_mobile", J.bool false),
   ("active_on_discord_desktop", J.bool false),
   ("active_on_discord_web", J.bool false),
   ("spotify", J.null)]

/-- Lines 236-268: the online snapshot built directly from the member.
The activities comprehension keeps only truthy formatted dicts; the
`spotify` key is assigned last, from the first Spotify activity. -/
def online_presence (m : SrcMember) : Dict :=
  [("discord_user", J.obj (userDict (some m.user))),
   ("discord_status", J.str m.status),
   ("activities",
      J.arr (((m.activities.map format_activity).filter (fun d => !d.isEmpty)).map J.obj)),
   ("client_status",
      J.obj [("desktop", J.bool (m.desktop_status != "offline")),
             ("mobile", J.bool (m.mobile_status != "offline")),
             ("web", J.bool (m.web_status != "offline"))]),
   ("active_on_discord_mobile", J.bool (m.mobile_status != "offline")),
   ("active_on_discord_desktop", J.bool (m.desktop_status != "offline")),
   ("active_on_discord_web", J.bool (m.web_status != "offline")),
   ("spotify",
      match m.activities.find? (fun act => decide (act.cls = ActClass.spotify)) with
      | some act => J.obj (format_activity act)
      | none => J.null)]

/-- `format_presence(member, fallback_user)` (lines 203-268): the offline
branch runs when there is no member or the member status is offline, using
the member itself (when present) preferentially as the identity record. -/
def format_presence (member : Option SrcMember) (fallback_user : Option SrcUser) : Dict :=
  match member with
  | none => offline_presence fallback_user
  | some m =>
      if m.status = "offline" then offline_presence (some m.user)
      else online_presence m

/-! ## Presence cache (`user_presences`, `update_presence_state`) -/

/-- The `user_presences` map, user id to latest snapshot dict. -/
abbrev Cache := List (Int × Dict)

/-- Dictionary store `user_presences[user_id] = presence_data`. -/
def setK : Cache → Int → Dict → Cache
  | [], k, v => [(k, v)]
  | (k', v') :: rest, k, v =>
      if k' = k then (k, v) :: rest else (k', v') :: setK rest k v

/-- Dictionary read `user_presences.get(user_id)`. -/
def getK : Cache → Int → Option Dict
  | [], _ => none
  | (k', v') :: rest, k => if k' = k then some v' else getK rest k

/-- `update_presence_state` (lines 324-337), restricted to its cache
effect: falsy presence data is rejected without touching the cache,
otherwise the entry is replaced unconditionally.  (The detached broadcast
it spawns is modelled separately by `notify_subscribed_clients`.) -/
def update_presence_state (c : Cache) (user_id : Int) (presence_data : Dict) : Cache :=
  if presence_data.isEmpty then c else setK c user_id presence_data

/-! ## Directory lookups and the REST query service
(`get_user_presence`, src/main.py lines 376-416) -/

/-- The directory state of the Discord client the endpoints consult:
the user cache behind `client.get_user` and the member lists of
`client.guilds`. -/
structure BotState where
  users : List SrcUser
  guilds : List (List SrcMember)

/-- `client.get_user(user_id)`. -/
def get_user (bs : BotState) (user_id : Int) : Option SrcUser :=
  bs.users.find? (fun u => decide (u.id = user_id))

/-- Lines 395-399 / 550-557: scan `client.guilds` with `get_member` and
keep the first hit. -/
def find_member_in_guilds : List (List SrcMember) → Int → Option SrcMember
  | [], _ => none
  | g :: rest, user_id =>
      match g.find? (fun m => decide (m.user.id = user_id)) with
      | some m => some m
      | none => find_member_in_guilds rest user_id

/-- Whitespace characters `int(...)` ignores around the number. -/
def isPySpace (c : Char) : Bool :=
  c == ' ' || c == '\t' || c == '\n' || c == '\r'

/-- Strip surrounding whitespace from a character list. -/
def stripSpaces (cs : List Char) : List Char :=
  ((cs.dropWhile isPySpace).reverse.dropWhile isPySpace).reverse

/-- Read a non-empty all-digit suffix as a natural number; `none` as soon
as a non-digit appears. -/
def digitsValAux : List Char → Nat → Option Nat
  | [], acc => some acc
  | c :: rest, acc =>
      if c.isDigit then digitsValAux rest (10 * acc + (c.toNat - 48)) else none

/-- A model of Python `int(s)` for decimal strings: optional surrounding
whitespace, an optional sign, then one or more decimal digits.  Returns
`none` where `int(...)` raises `ValueError`. -/
def pyIntOfChars : List Char → Option Int
  | [] => none
  | c :: rest =>
      if c == '-' then
        if rest.isEmpty then none
        else (digitsValAux rest 0).map (fun n => -(n : Int))
      else if c == '+' then
        if rest.isEmpty then none
        else (digitsValAux rest 0).map (fun n => (n : Int))
      else (digitsValAux (c :: rest) 0).map (fun n => (n : Int))

/-- `int(user_id_str)` on a string parameter. -/
def parseId (s : String) : Option Int :=
  pyIntOfChars (stripSpaces s.data)

/-- The outcome of the REST endpoint: a JSON response or an
`HTTPException(status_code, detail)`. -/
inductive QueryResult where
  | ok (data : J)
  | httpError (status : Nat) (detail : String)

/-- `get_user_presence` (lines 376-416): malformed id is a 400; a truthy
cached snapshot is returned as is; otherwise the directory is consulted
(user cache by id, then the guild member lists) and, when any record is
found, the snapshot `format_presence(member_obj, user_obj)` is returned;
with no record at all the endpoint raises a 404. -/
def get_user_presence (bs : BotState) (cache : Cache) (user_id_str : String) : QueryResult :=
  match parseId user_id_str with
  | none => QueryResult.httpError 400 "User ID must be an integer."
  | some user_id =>
      let cached := (getK cache user_id).getD []
      if !cached.isEmpty then
        QueryResult.ok (J.obj [("success", J.bool true), ("data", J.obj cached)])
      else
        let member_obj := find_member_in_guilds bs.guilds user_id
        let user_obj := get_user bs user_id
        if member_obj.isSome || user_obj.isSome then
          QueryResult.ok (J.obj [("success", J.bool true),
            ("data", J.obj (format_presence member_obj user_obj))])
        else
          QueryResult.httpError 404 "User not found or bot cannot access user."

/-! ## Subscription registry and broadcast engine
(`websocket_subscriptions`, `notify_subscribed_clients`, lines 271-321) -/

/-- An opaque websocket connection handle. -/
abbrev Conn := Nat

/-- The `websocket_subscriptions` dict: connection to subscribed ids.
Like every Python dict it holds at most one entry per connection. -/
abbrev Registry := List (Conn × List Int)

/-- Python `del registry[c]` guarded by `c in registry`: remove the entry
for `c` when present, otherwise leave the dict unchanged. -/
def delConn : Registry → Conn → Registry
  | [], _ => []
  | p :: rest, c => if p.1 = c then rest else p :: delConn rest c

/-- `registry.get(c, set())`. -/
def getSubs (reg : Registry) (c : Conn) : List Int :=
  ((reg.find? (fun p => p.1 == c)).map Prod.snd).getD []

/-- `registry[c] = ids`. -/
def setSubs : Registry → Conn → List Int → Registry
  | [], c, ids => [(c, ids)]
  | p :: rest, c, ids =>
      if p.1 = c then (c, ids) :: rest else p :: setSubs rest c ids

/-- The wire envelope `op = OP_EVENT (0)`, event type `t`, data `d`
(lines 277-281 and 567-573). -/
def eventEnvelope (t : String) (d : J) : J :=
  J.obj [("op", J.num 0), ("t", J.str t), ("d", d)]

/-- One observable step of the broadcast pass. -/
inductive BAction where
  | serialize (msg : J)
  | send (c : Conn) (msg : J) (ok : Bool)
  | removeDead (c : Conn)

/-- Lines 291-311: the fan-out loop over the registry snapshot.  For every
pair whose id set contains `user_id` one send of the serialized message is
attempted; a failed send appends the connection to the dead list.
`sendOk` tells which connections accept the send. -/
def broadcastPass (sendOk : Conn → Bool) (user_id : Int) (msg : J) :
    Registry → List BAction × List Conn
  | [] => ([], [])
  | p :: rest =>
      let tail := broadcastPass sendOk user_id msg rest
      if user_id ∈ p.2 then
        (BAction.send p.1 msg (sendOk p.1) :: tail.1,
         if sendOk p.1 then tail.2 else p.1 :: tail.2)
      else tail

/-- Lines 313-321: after the pass, every dead connection is deleted from
the registry under the lock (each `del` guarded by membership). -/
def removeDeadConns (reg : Registry) (dead : List Conn) : Registry :=
  dead.foldl delConn reg

/-- `notify_subscribed_clients` (lines 271-321): falsy data aborts with no
effect; otherwise one `PRESENCE_UPDATE` envelope is built and serialized
once, a point-in-time snapshot of the registry is taken under the lock
(sequentially: the registry itself), the fan-out pass runs over it, and
the dead connections are then removed from the registry.  Returns the
action trace and the registry after cleanup. -/
def notify_subscribed_clients (reg : Registry) (sendOk : Conn → Bool)
    (user_id : Int) (presence_data : Dict) : List BAction × Registry :=
  if presence_data.isEmpty then ([], reg)
  else
    let msg := eventEnvelope "PRESENCE_UPDATE" (J.obj presence_data)
    let subscriptions_copy := reg
    let pass := broadcastPass sendOk user_id msg subscriptions_copy
    (BAction.serialize msg :: pass.1 ++ pass.2.map BAction.removeDead,
     removeDeadConns reg pass.2)

/-! ## The INITIALIZE message (src/main.py lines 480-586) -/

/-- Lines 494-508: the loop body over the `subscribe_to_ids` payload.
Each entry is parsed with `int(...)`; failures are logged and skipped.
Parsed ids are added to the valid set, and to the newly-subscribed set
when they are not in the current subscription set.  Python sets are
modelled as duplicate-free lists in first-insertion order; the
accumulator carries (valid ids, newly subscribed ids). -/
def subIdsLoop (current_subs : List Int) :
    List String → List Int × List Int → List Int × List Int
  | [], acc => acc
  | s :: rest, acc =>
      subIdsLoop current_subs rest
        (match parseId s with
         | some n =>
             (if n ∈ acc.1 then acc.1 else acc.1 ++ [n],
              if n ∈ current_subs then acc.2
              else if n ∈ acc.2 then acc.2 else acc.2 ++ [n])
         | none => acc)

/-- Lines 494-508: one pass over the whole payload starting from empty
sets. -/
def parse_subscribe_ids (current_subs : List Int) (payload : List String) :
    List Int × List Int :=
  subIdsLoop current_subs payload ([], [])

/-- Lines 526-566: the initial state sent for one newly subscribed id. A
truthy cached snapshot is used directly; on a miss the directory is
consulted (`client.get_user`, which never yields a member, then the guild
scan) and `format_presence(member_obj, user_obj)` is generated. -/
def init_state_for (bs : BotState) (cache : Cache) (sub_id : Int) : Dict :=
  let cached := (getK cache sub_id).getD []
  if !cached.isEmpty then cached
  else
    let member_obj := find_member_in_guilds bs.guilds sub_id
    let user_obj := match member_obj with
      | some m => some m.user
      | none => get_user bs sub_id
    format_presence member_obj user_obj

/-- Lines 480-586: processing one INITIALIZE message against the current
subscription set: the new subscription set is the full replacement by the
valid parsed ids, and one INIT_STATE envelope is built per newly
subscribed id. -/
def initializeHandler (bs : BotState) (cache : Cache) (current_subs : List Int)
    (payload : List String) : List Int × List J :=
  let r := parse_subscribe_ids current_subs payload
  (r.1, r.2.map (fun sub_id =>
    eventEnvelope "INIT_STATE" (J.obj (init_state_for bs cache sub_id))))

/-! ## Connection handler skeleton (`websocket_endpoint`, lines 429-655)

The model traces the handler control flow that claims about teardown care
about: the HELLO send, the registration, the receive loop (whose only
registry effect is the full replacement performed by INITIALIZE frames),
the exit cause, and the `finally` block that always runs. -/

/-- The cause that makes the receive loop stop: idle timeout (line 607),
transport disconnect (line 612), a failed INIT_STATE send (line 584,
re-raised and caught by the loop), or any unexpected fault (line 623). -/
inductive LoopExit where
  | idleTimeout
  | transportClosed
  | initStateSendFailed
  | unexpectedFault
deriving DecidableEq

/-- Observable steps of the connection handler. -/
inductive HAction where
  | helloSent (ok : Bool)
  | registered
  | loopEnded (e : LoopExit)
  | teardownEntered
  | entryRemoved
  | forceClosed (code : Nat)
deriving DecidableEq

/-- Lines 637-655, the `finally` block: remove the registry entry when
present, then force-close with code 1011 when the transport is still
open. -/
def handlerFinallyBlock (reg : Registry) (c : Conn) (stillOpen : Bool) :
    List HAction × Registry :=
  (HAction.teardownEntered ::
      (if (reg.map Prod.fst).contains c then [HAction.entryRemoved] else []) ++
      (if stillOpen then [HAction.forceClosed 1011] else []),
   delConn reg c)

/-- Lines 461-629: the receive loop restricted to its registry effect.
Each INITIALIZE payload replaces the subscription set of this connection
by the valid parsed ids (line 512); all other frames leave the registry
unchanged. -/
def run_ws_loop (c : Conn) : Registry → List (List String) → Registry
  | reg, [] => reg
  | reg, payload :: rest =>
      run_ws_loop c
        (setSubs reg c (parse_subscribe_ids (getSubs reg c) payload).1) rest

/-- `websocket_endpoint` (lines 429-655), as a trace over one connection
lifetime after a successful accept.  When HELLO fails the handler returns
early with no registry entry ever created; otherwise it registers an
empty set, runs the loop over the received INITIALIZE payloads until
`exitReason` stops it, and in every case the `finally` teardown runs. -/
def websocket_endpoint (reg : Registry) (c : Conn) (helloOk : Bool)
    (payloads : List (List String)) (exitReason : LoopExit) (stillOpen : Bool) :
    List HAction × Registry :=
  if helloOk then
    let reg1 := setSubs reg c []
    let reg2 := run_ws_loop c reg1 payloads
    let fin := handlerFinallyBlock reg2 c stillOpen
    (HAction.helloSent true :: HAction.registered ::
       HAction.loopEnded exitReason :: fin.1, fin.2)
  else
    let fin := handlerFinallyBlock reg c stillOpen
    (HAction.helloSent false :: fin.1, fin.2)

/-! ## Concrete sample data used by witnesses and counterexamples -/

/-- A source activity with every probed attribute absent. -/
def blankActivity : SrcActivity :=
  { cls := ActClass.game, atype := 0, name := none, start := none, stop := none,
    details := none, state := none, url := none, title := none, artists := [],
    album := none, album_cover_url := none, party_id := none, track_id := none,
    emoji := none, large_image_url := none, large_image_text := none,
    small_image_url := none, small_image_text := none, party := none,
    flags := none }

/-- A custom-status activity whose source carries raw start and end
timestamps. -/
def customW : SrcActivity :=
  { blankActivity with
    cls := ActClass.custom, atype := 4,
    name := some "Custom Status", start := some 1111, stop := some 2222,
    state := some "hello there" }

/-- A Spotify activity with the full set of music attributes. -/
def spotifyW : SrcActivity :=
  { blankActivity with
    cls := ActClass.spotify, atype := 2,
    name := some "SongTitle", start := some 10, stop := some 20,
    title := some "SongTitle", artists := ["Artist A", "Artist B"],
    album := some "The Album", album_cover_url := some "https://img.example/c.png",
    party_id := some "spotify:party", track_id := some "track123" }

/-- A game activity with details, as in the spec example. -/
def gameW : SrcActivity :=
  { blankActivity with
    cls := ActClass.game, atype := 0,
    name := some "Chess", details := some "Move 4" }

/-- A sample user record. -/
def userW : SrcUser :=
  { id := 7, name := "vorlie", discriminator := "0001", avatar := none,
    bot := false, public_flags := 0 }

/-- An online member playing a game and listening to Spotify. -/
def memberW : SrcMember :=
  { user := userW, status := "online", activities := [gameW, spotifyW],
    desktop_status := "online", mobile_status := "offline",
    web_status := "offline" }

/-- A directory in which user 7 is a guild member that is currently
online — the state that makes a cache miss return live data. -/
def botStateOnline : BotState :=
  { users := [], guilds := [[memberW]] }

/-- The same member while offline. -/
def memberOffW : SrcMember :=
  { user := userW, status := "offline", activities := [],
    desktop_status := "offline", mobile_status := "offline",
    web_status := "offline" }

/-- A directory in which user 7 is a guild member that is offline. -/
def botStateOff : BotState :=
  { users := [], guilds := [[memberOffW]] }

/-- An empty directory: no user cache entries, no guilds. -/
def botStateEmpty : BotState :=
  { users := [], guilds := [] }

/-! # Theorems

Helper lemmas first, then one theorem per specification claim (with a
witness where the theorem carries hypotheses).
-/

theorem lookupKey_nil (k : String) : lookupKey [] k = none := rfl

theorem lookupKey_cons (k' : String) (v' : J) (d : Dict) (k : String) :
    lookupKey ((k', v') :: d) k = if k' = k then some v' else lookupKey d k := by
  by_cases h : k' = k
  · simp [lookupKey, List.find?_cons, h]
  · have hb : (k' == k) = false := by simpa using h
    simp [lookupKey, List.find?_cons, hb, h]

theorem hasKey_eq_isSome_lookupKey (d : Dict) (k : String) :
    hasKey d k = (lookupKey d k).isSome := by
  simp [hasKey, lookupKey]

theorem lookupKey_setKey_self (d : Dict) (k : String) (v : J) :
    lookupKey (setKey d k v) k = some v := by
  induction d with
  | nil => simp [setKey, lookupKey_cons]
  | cons p rest ih =>
      obtain ⟨k', v'⟩ := p
      by_cases h : k' = k
      · simp [setKey, h, lookupKey_cons]
      · simp [setKey, h, lookupKey_cons, ih]

theorem lookupKey_setKey_ne (d : Dict) (k k' : String) (v : J) (h : k' ≠ k) :
    lookupKey (setKey d k v) k' = lookupKey d k' := by
  induction d with
  | nil => simp [setKey, lookupKey_cons, Ne.symm h]
  | cons p rest ih =>
      obtain ⟨pk, pv⟩ := p
      by_cases hp : pk = k
      · subst hp
        simp [setKey, lookupKey_cons, Ne.symm h]
      · simp only [setKey, hp, if_false]
        rw [lookupKey_cons, lookupKey_cons, ih]

theorem hasKey_setKey_ne (d : Dict) (k k' : String) (v : J) (h : k' ≠ k) :
    hasKey (setKey d k v) k' = hasKey d k' := by
  rw [hasKey_eq_isSome_lookupKey, hasKey_eq_isSome_lookupKey, lookupKey_setKey_ne d k k' v h]

theorem hasKey_of_lookupKey (d : Dict) (k : String) (v : J)
    (h : lookupKey d k = some v) : hasKey d k = true := by
  rw [hasKey_eq_isSome_lookupKey, h]
  rfl

/-! ## Cache lemmas -/

theorem getK_setK_self (c : Cache) (k : Int) (v : Dict) :
    getK (setK c k v) k = some v := by
  induction c with
  | nil => simp [setK, getK]
  | cons p rest ih =>
      obtain ⟨k', v'⟩ := p
      by_cases h : k' = k
      · simp [setK, h, getK]
      · simp [setK, h, getK, ih]

theorem setK_map_fst (c : Cache) (k : Int) (v : Dict) :
    (setK c k v).map Prod.fst =
      if k ∈ c.map Prod.fst then c.map Prod.fst else c.map Prod.fst ++ [k] := by
  induction c with
  | nil => simp [setK]
  | cons p rest ih =>
      obtain ⟨k', v'⟩ := p
      by_cases h : k' = k
      · simp [setK, h]
      · simp only [setK, h, if_false, List.map_cons]
        rw [ih]
        by_cases hm : k ∈ rest.map Prod.fst
        · simp [hm, Ne.symm h]
        · simp [hm, Ne.symm h]

theorem setK_keys_nodup (c : Cache) (k : Int) (v : Dict)
    (h : (c.map Prod.fst).Nodup) : ((setK c k v).map Prod.fst).Nodup := by
  rw [setK_map_fst]
  by_cases hm : k ∈ c.map Prod.fst
  · simpa [hm] using h
  · simp only [hm, if_false]
    simpa [List.nodup_append, hm] using h

theorem update_presence_state_keys_nodup (c : Cache) (uid : Int) (d : Dict)
    (h : (c.map Prod.fst).Nodup) :
    ((update_presence_state c uid d).map Prod.fst).Nodup := by
  unfold update_presence_state
  by_cases hd : d.isEmpty
  · simpa [hd] using h
  · simpa [hd] using setK_keys_nodup c uid d h

theorem cache_foldl_keys_nodup (writes : List Dict) (c : Cache) (uid : Int)
    (h : (c.map Prod.fst).Nodup) :
    ((writes.foldl (fun acc d => update_presence_state acc uid d) c).map Prod.fst).Nodup := by
  induction writes generalizing c with
  | nil => simpa using h
  | cons w rest ih =>
      simpa using ih (update_presence_state c uid w)
        (update_presence_state_keys_nodup c uid w h)

theorem cache_foldl_last (writes : List Dict) (c : Cache) (uid : Int) (w : Dict)
    (hlast : writes.getLast? = some w)
    (hvalid : ∀ d ∈ writes, d.isEmpty = false) :
    getK (writes.foldl (fun acc d => update_presence_state acc uid d) c) uid = some w := by
  induction writes generalizing c with
  | nil => simp at hlast
  | cons x rest ih =>
      cases rest with
      | nil =>
          have hx : x = w := by simpa using hlast
          subst hx
          have hw : x.isEmpty = false := hvalid x (by simp)
          simp [update_presence_state, hw, getK_setK_self]
      | cons y ys =>
          have hlast' : (y :: ys).getLast? = some w := by
            simpa [List.getLast?_cons_cons] using hlast
          have hvalid' : ∀ d ∈ y :: ys, d.isEmpty = false := fun d hd =>
            hvalid d (List.mem_cons_of_mem x hd)
          simpa using ih (update_presence_state c uid x) hlast' hvalid'

/-- C9: for every sequence of cache writes to identity `uid`, reading the
cache afterwards yields the snapshot of the last write applied: each
applied write replaces the entry unconditionally in arrival order, with no
inspection of any timestamp inside the snapshot, and every intermediate
cache keeps at most one entry per identity. -/
theorem cache_last_write_wins (c : Cache) (uid : Int) (writes : List Dict) (w : Dict)
    (hlast : writes.getLast? = some w)
    (hvalid : ∀ d ∈ writes, d.isEmpty = false)
    (hnd : (c.map Prod.fst).Nodup) :
    getK (writes.foldl (fun acc d => update_presence_state acc uid d) c) uid = some w
    ∧ ∀ n : Nat,
        (((writes.take n).foldl (fun acc d => update_presence_state acc uid d) c).map
            Prod.fst).Nodup := by
  refine ⟨cache_foldl_last writes c uid w hlast hvalid, fun n => ?_⟩
  exact cache_foldl_keys_nodup (writes.take n) c uid hnd

/-- Witness for C9 at a concrete input: two successive writes for id 7;
the read returns the second snapshot. -/
theorem cache_last_write_wins_witness :
    ([[("discord_status", J.str "online")], [("discord_status", J.str "idle")]].getLast?
        = some [("discord_status", J.str "idle")])
    ∧ getK ([[("discord_status", J.str "online")],
          [("discord_status", J.str "idle")]].foldl
          (fun acc d => update_presence_state acc 7 d) []) 7
        = some [("discord_status", J.str "idle")] := by
  refine ⟨rfl, ?_⟩
  exact (cache_last_write_wins [] 7
    [[("discord_status", J.str "online")], [("discord_status", J.str "idle")]]
    [("discord_status", J.str "idle")] rfl
    (by intro d hd; simp at hd; rcases hd with h | h <;> simp [h])
    (by simp)).1

/-! ## C6: the canonical offline snapshot -/

/-- C6: every offline snapshot the normalizer produces — whether the
member record is missing or its status is offline — carries status
`offline`, an empty activities list, an empty `client_status` dict with
all three surface flags false, and null `spotify`; its `discord_user`
display info comes from the most specific identity record available (the
member itself, else the fallback user), and `userDict none` is the
sentinel `unknown` identity used when no record exists at all.  The
construction is a total function, so it never fails. -/
theorem offline_snapshot_canonical (member : Option SrcMember) (fb : Option SrcUser)
    (h : member = none ∨ ∃ m, member = some m ∧ m.status = "offline") :
    lookupKey (format_presence member fb) "discord_status" = some (J.str "offline")
    ∧ lookupKey (format_presence member fb) "activities" = some (J.arr [])
    ∧ lookupKey (format_presence member fb) "client_status" = some (J.obj [])
    ∧ lookupKey (format_presence member fb) "active_on_discord_mobile" = some (J.bool false)
    ∧ lookupKey (format_presence member fb) "active_on_discord_desktop" = some (J.bool false)
    ∧ lookupKey (format_presence member fb) "active_on_discord_web" = some (J.bool false)
    ∧ lookupKey (format_presence member fb) "spotify" = some J.null
    ∧ lookupKey (format_presence member fb) "discord_user"
        = some (J.obj (userDict (match member with
                                 | some m => some m.user
                                 | none => fb)))
    ∧ userDict none =
        [("id", J.str "unknown"), ("username", J.str "unknown"),
         ("discriminator", J.str "0000"), ("avatar", J.null),
         ("bot", J.bool false), ("public_flags", J.num 0)] := by
  rcases h with h | ⟨m, hm, hs⟩
  · subst h
    exact ⟨rfl, rfl, rfl, rfl, rfl, rfl, rfl, rfl, rfl⟩
  · subst hm
    simp only [format_presence, hs, if_pos]
    exact ⟨rfl, rfl, rfl, rfl, rfl, rfl, rfl, rfl, rfl⟩

/-- Witness for C6: an offline member with no activities yields the
canonical offline snapshot of the claim. -/
theorem offline_snapshot_canonical_witness :
    ((some { user := { id := 7, name := "vorlie", discriminator := "0001",
                       avatar := none, bot := false, public_flags := 0 },
             status := "offline", activities := [],
             desktop_status := "offline", mobile_status := "offline",
             web_status := "offline" } : Option SrcMember) = none
      ∨ ∃ m, (some { user := { id := 7, name := "vorlie", discriminator := "0001",
                               avatar := none, bot := false, public_flags := 0 },
                     status := "offline", activities := [],
                     desktop_status := "offline", mobile_status := "offline",
                     web_status := "offline" } : Option SrcMember) = some m
          ∧ m.status = "offline")
    ∧ lookupKey (format_presence
          (some { user := { id := 7, name := "vorlie", discriminator := "0001",
                            avatar := none, bot := false, public_flags := 0 },
                  status := "offline", activities := [],
                  desktop_status := "offline", mobile_status := "offline",
                  web_status := "offline" }) none) "discord_status"
        = some (J.str "offline") := by
  refine ⟨Or.inr ⟨_, rfl, rfl⟩, ?_⟩
  exact (offline_snapshot_canonical
    (some { user := { id := 7, name := "vorlie", discriminator := "0001",
                      avatar := none, bot := false, public_flags := 0 },
            status := "offline", activities := [],
            desktop_status := "offline", mobile_status := "offline",
            web_status := "offline" }) none (Or.inr ⟨_, rfl, rfl⟩)).1

/-! ## C4: custom status strips timestamps -/

theorem genericFill_noop (a : SrcActivity) (d : Dict)
    (h1 : a.details = none) (h2 : a.large_image_url = none)
    (h3 : a.small_image_url = none) (h4 : a.party = none) (h5 : a.flags = none) :
    genericFill a d = d := by
  simp [genericFill, genericDetailsStep, genericStateStep, genericAssetsStep,
    genericPartyStep, genericFlagsStep, genericAssets, h1, h2, h3, h4, h5]

/-- C4: a custom-status activity maps to a dict whose keys are exactly
`type`, `name`, `state`, `emoji` — in particular no `timestamps` key —
for every source value of the raw `start`/`end` attributes: the branch
explicitly resets the already-collected timestamps, so the stripping is an
override, not an omission. -/
theorem custom_status_strips_timestamps (a : SrcActivity)
    (hwf : WFActivity a) (hc : a.cls = ActClass.custom) :
    (format_activity a).map Prod.fst = ["type", "name", "state", "emoji"]
    ∧ lookupKey (format_activity a) "timestamps" = none
    ∧ lookupKey (format_activity a) "state" = some (jOfOptStr a.state)
    ∧ lookupKey (format_activity a) "emoji"
        = some (match a.emoji with
                | some e => emojiDict e
                | none => J.null) := by
  obtain ⟨hd, hl, hs, hp, hf⟩ := hwf.2 hc
  have hfa : format_activity a =
      setKey (setKey [("type", J.num a.atype), ("name", jOfOptStr a.name)]
          "state" (jOfOptStr a.state)) "emoji"
        (match a.emoji with
         | some e => emojiDict e
         | none => J.null) := by
    simp only [format_activity, typeStage, typeBranch, hc]
    simp [genericFill_noop a _ hd hl hs hp hf]
  rw [hfa]
  exact ⟨rfl, rfl, rfl, rfl⟩

/-- Witness for C4: a custom status whose source carries both raw
timestamps still maps to a dict with no `timestamps` key. -/
theorem custom_status_strips_timestamps_witness :
    WFActivity customW ∧ customW.cls = ActClass.custom
    ∧ customW.start = some 1111 ∧ customW.stop = some 2222
    ∧ lookupKey (format_activity customW) "timestamps" = none := by
  have hwf : WFActivity customW := by
    constructor
    · intro h
      exact nomatch h
    · intro h
      exact ⟨rfl, rfl, rfl, rfl, rfl⟩
  refine ⟨hwf, rfl, rfl, rfl, ?_⟩
  exact (custom_status_strips_timestamps customW hwf rfl).2.1

/-! ## C7: the music projection -/

/-- C7: a music (Spotify) activity is mapped with the canonical display
name forced to `"Spotify"`, and its `details` (title), `state` (artist
join), `album`, `assets`, `party` and `sync_id` are built from the
source-specific music attributes; a snapshot of a non-offline member
exposes the same projection of its first Spotify activity as the separate
`spotify` field, which is null when no music activity exists. -/
theorem spotify_projection_spec (a : SrcActivity) (hwf : WFActivity a)
    (hs : a.cls = ActClass.spotify) :
    (lookupKey (format_activity a) "name" = some (J.str "Spotify")
     ∧ lookupKey (format_activity a) "type" = some (J.num 2)
     ∧ lookupKey (format_activity a) "details" = some (jOfOptStr a.title)
     ∧ lookupKey (format_activity a) "state"
         = some (J.str (String.intercalate "; " a.artists))
     ∧ lookupKey (format_activity a) "album" = some (jOfOptStr a.album)
     ∧ lookupKey (format_activity a) "assets" = some (J.obj (spotifyAssets a))
     ∧ lookupKey (format_activity a) "party" = some (spotifyParty a)
     ∧ lookupKey (format_activity a) "sync_id" = some (jOfOptStr a.track_id))
    ∧ (∀ (m : SrcMember) (fb : Option SrcUser), m.status ≠ "offline" →
         lookupKey (format_presence (some m) fb) "spotify"
           = some (match m.activities.find?
                       (fun act => decide (act.cls = ActClass.spotify)) with
                   | some act => J.obj (format_activity act)
                   | none => J.null)) := by
  obtain ⟨hd, hst, hl, hsm, hp, hf⟩ := hwf.1 hs
  have hnoop : ∀ d, genericFill a d = d := fun d =>
    genericFill_noop a d hd hl hsm hp hf
  constructor
  · by_cases hts : (collectTimestamps a).isEmpty <;>
      refine ⟨?_, ?_, ?_, ?_, ?_, ?_, ?_, ?_⟩ <;>
      simp [format_activity, typeStage, typeBranch, hs, hnoop, hts,
        lookupKey_setKey_self, lookupKey_setKey_ne]
  · intro m fb hm
    simp only [format_presence, if_neg hm]
    rfl

/-- Witness for C7: the sample Spotify activity of the sample online
member; its projection appears both in the activity mapping and as the
`spotify` field of the snapshot. -/
theorem spotify_projection_spec_witness :
    WFActivity spotifyW ∧ spotifyW.cls = ActClass.spotify
    ∧ memberW.status ≠ "offline"
    ∧ lookupKey (format_activity spotifyW) "name" = some (J.str "Spotify")
    ∧ lookupKey (format_presence (some memberW) none) "spotify"
        = some (J.obj (format_activity spotifyW)) := by
  have hwf : WFActivity spotifyW := by
    constructor
    · intro h
      exact ⟨rfl, rfl, rfl, rfl, rfl, rfl⟩
    · intro h
      exact nomatch h
  refine ⟨hwf, rfl, by decide, ?_, ?_⟩
  · exact (spotify_projection_spec spotifyW hwf rfl).1.1
  · exact (spotify_projection_spec spotifyW hwf rfl).2 memberW none (by decide)

/-! ## C3: the generic fill never overwrites the type-specific branch -/

theorem lookupKey_dsp_ne (a : SrcActivity) (d : Dict) (k : String)
    (h1 : k ≠ "details") (h2 : k ≠ "state") :
    lookupKey (detailsStatePassthrough a d) k = lookupKey d k := by
  unfold detailsStatePassthrough
  cases a.details with
  | none =>
      cases a.state with
      | none => rfl
      | some s =>
          by_cases hs : s.isEmpty <;> simp [hs, lookupKey_setKey_ne _ _ _ _ h2]
  | some s0 =>
      cases a.state with
      | none =>
          by_cases hs0 : s0.isEmpty <;> simp [hs0, lookupKey_setKey_ne _ _ _ _ h1]
      | some s =>
          by_cases hs0 : s0.isEmpty <;> by_cases hs : s.isEmpty <;>
            simp [hs0, hs, lookupKey_setKey_ne _ _ _ _ h1,
              lookupKey_setKey_ne _ _ _ _ h2]

theorem typeStage_lookup_flags (a : SrcActivity) :
    lookupKey (typeStage a).1 "flags" = none := by
  unfold typeStage typeBranch
  cases hc : a.cls with
  | game =>
      rw [lookupKey_dsp_ne a _ _ (by decide) (by decide)]
      rfl
  | streaming => simp [lookupKey_setKey_ne, lookupKey_cons, lookupKey_nil]
  | spotify => simp [lookupKey_setKey_ne, lookupKey_cons, lookupKey_nil]
  | activity =>
      by_cases h3 : a.atype = 3
      · rw [if_pos h3]
        rw [lookupKey_dsp_ne a _ _ (by decide) (by decide)]
        rfl
      · by_cases h5 : a.atype = 5
        · rw [if_neg h3, if_pos h5]
          rw [lookupKey_dsp_ne a _ _ (by decide) (by decide)]
          rfl
        · rw [if_neg h3, if_neg h5]
          simp [lookupKey_cons, lookupKey_nil]
  | custom => simp [lookupKey_setKey_ne, lookupKey_cons, lookupKey_nil]

theorem typeStage_lookup_assets (a : SrcActivity) (hc : a.cls ≠ ActClass.spotify) :
    lookupKey (typeStage a).1 "assets" = none := by
  unfold typeStage typeBranch
  cases hcc : a.cls with
  | game =>
      rw [lookupKey_dsp_ne a _ _ (by decide) (by decide)]
      rfl
  | streaming => simp [lookupKey_setKey_ne, lookupKey_cons, lookupKey_nil]
  | spotify => exact absurd hcc hc
  | activity =>
      by_cases h3 : a.atype = 3
      · rw [if_pos h3]
        rw [lookupKey_dsp_ne a _ _ (by decide) (by decide)]
        rfl
      · by_cases h5 : a.atype = 5
        · rw [if_neg h3, if_pos h5]
          rw [lookupKey_dsp_ne a _ _ (by decide) (by decide)]
          rfl
        · rw [if_neg h3, if_neg h5]
          simp [lookupKey_cons, lookupKey_nil]
  | custom => simp [lookupKey_setKey_ne, lookupKey_cons, lookupKey_nil]

theorem typeStage_lookup_party (a : SrcActivity) (hc : a.cls ≠ ActClass.spotify) :
    lookupKey (typeStage a).1 "party" = none := by
  unfold typeStage typeBranch
  cases hcc : a.cls with
  | game =>
      rw [lookupKey_dsp_ne a _ _ (by decide) (by decide)]
      rfl
  | streaming => simp [lookupKey_setKey_ne, lookupKey_cons, lookupKey_nil]
  | spotify => exact absurd hcc hc
  | activity =>
      by_cases h3 : a.atype = 3
      · rw [if_pos h3]
        rw [lookupKey_dsp_ne a _ _ (by decide) (by decide)]
        rfl
      · by_cases h5 : a.atype = 5
        · rw [if_neg h3, if_pos h5]
          rw [lookupKey_dsp_ne a _ _ (by decide) (by decide)]
          rfl
        · rw [if_neg h3, if_neg h5]
          simp [lookupKey_cons, lookupKey_nil]
  | custom => simp [lookupKey_setKey_ne, lookupKey_cons, lookupKey_nil]

theorem genericDetailsStep_lookup_ne (a : SrcActivity) (d : Dict) (k : String)
    (h : k ≠ "details") :
    lookupKey (genericDetailsStep a d) k = lookupKey d k := by
  unfold genericDetailsStep
  cases a.details with
  | none => rfl
  | some s =>
      dsimp only
      split_ifs <;> simp [lookupKey_setKey_ne _ _ _ _ h]

theorem genericDetailsStep_lookup_hasKey (a : SrcActivity) (d : Dict)
    (h : hasKey d "details" = true) :
    lookupKey (genericDetailsStep a d) "details" = lookupKey d "details" := by
  unfold genericDetailsStep
  cases a.details with
  | none => rfl
  | some s => simp [h]

theorem genericStateStep_eq (a : SrcActivity) (d : Dict) :
    genericStateStep a d = d := rfl

theorem genericAssetsStep_lookup_ne (a : SrcActivity) (d : Dict) (k : String)
    (h : k ≠ "assets") :
    lookupKey (genericAssetsStep a d) k = lookupKey d k := by
  unfold genericAssetsStep
  split_ifs <;> simp [lookupKey_setKey_ne _ _ _ _ h]

theorem genericAssetsStep_of_empty (a : SrcActivity) (d : Dict)
    (h : genericAssets a = []) : genericAssetsStep a d = d := by
  simp [genericAssetsStep, h]

theorem genericAssets_of_none (a : SrcActivity) (h2 : a.large_image_url = none)
    (h3 : a.small_image_url = none) : genericAssets a = [] := by
  simp [genericAssets, h2, h3]

theorem genericPartyStep_lookup_ne (a : SrcActivity) (d : Dict) (k : String)
    (h : k ≠ "party") :
    lookupKey (genericPartyStep a d) k = lookupKey d k := by
  unfold genericPartyStep
  cases a.party with
  | none => rfl
  | some p =>
      dsimp only
      split_ifs <;> simp [lookupKey_setKey_ne _ _ _ _ h]

theorem genericPartyStep_of_none (a : SrcActivity) (d : Dict)
    (h : a.party = none) : genericPartyStep a d = d := by
  simp [genericPartyStep, h]

theorem genericFlagsStep_lookup_ne (a : SrcActivity) (d : Dict) (k : String)
    (h : k ≠ "flags") :
    lookupKey (genericFlagsStep a d) k = lookupKey d k := by
  unfold genericFlagsStep
  cases hfl : a.flags with
  | none => rfl
  | some fr => cases fr <;> simp [lookupKey_setKey_ne _ _ _ _ h]

theorem tsIf_lookup_ne (a : SrcActivity) (k : String) (h : k ≠ "timestamps") :
    lookupKey (if !(typeStage a).2.isEmpty then
        setKey (typeStage a).1 "timestamps" (J.obj (typeStage a).2)
      else (typeStage a).1) k
      = lookupKey (typeStage a).1 k := by
  split_ifs <;> simp [lookupKey_setKey_ne _ _ _ _ h]

/-- C3: for every activity with a source-realizable attribute layout, and
for each of the generic optional fields `details`, `state`, `assets`,
`party`, `flags`, a value the type-specific branch already produced is
kept verbatim in the final mapped activity: the later generic fill step
attaches such a field only when the branch left it unset and never
overwrites it. -/
theorem generic_fill_never_overwrites (a : SrcActivity) (hwf : WFActivity a)
    (k : String)
    (hk : k = "details" ∨ k = "state" ∨ k = "assets" ∨ k = "party" ∨ k = "flags")
    (v : J) (hv : lookupKey (typeStage a).1 k = some v) :
    lookupKey (format_activity a) k = some v := by
  have hkts : k ≠ "timestamps" := by
    rcases hk with h | h | h | h | h <;> subst h <;> decide
  have hfa : format_activity a =
      genericFill a (if !(typeStage a).2.isEmpty then
          setKey (typeStage a).1 "timestamps" (J.obj (typeStage a).2)
        else (typeStage a).1) := rfl
  rw [hfa]
  set d1 := (if !(typeStage a).2.isEmpty then
      setKey (typeStage a).1 "timestamps" (J.obj (typeStage a).2)
    else (typeStage a).1) with hd1def
  have hts : lookupKey d1 k = some v := by
    rw [hd1def, tsIf_lookup_ne a k hkts]
    exact hv
  unfold genericFill
  rcases hk with h | h | h | h | h
  · subst h
    rw [genericFlagsStep_lookup_ne _ _ _ (by decide),
      genericPartyStep_lookup_ne _ _ _ (by decide),
      genericAssetsStep_lookup_ne _ _ _ (by decide),
      genericStateStep_eq,
      genericDetailsStep_lookup_hasKey a d1 (hasKey_of_lookupKey _ _ _ hts)]
    exact hts
  · subst h
    rw [genericFlagsStep_lookup_ne _ _ _ (by decide),
      genericPartyStep_lookup_ne _ _ _ (by decide),
      genericAssetsStep_lookup_ne _ _ _ (by decide),
      genericStateStep_eq,
      genericDetailsStep_lookup_ne _ _ _ (by decide)]
    exact hts
  · subst h
    by_cases hsp : a.cls = ActClass.spotify
    · obtain ⟨_, _, hl, hsm, _, _⟩ := hwf.1 hsp
      rw [genericFlagsStep_lookup_ne _ _ _ (by decide),
        genericPartyStep_lookup_ne _ _ _ (by decide),
        genericAssetsStep_of_empty a _ (genericAssets_of_none a hl hsm),
        genericStateStep_eq,
        genericDetailsStep_lookup_ne _ _ _ (by decide)]
      exact hts
    · rw [typeStage_lookup_assets a hsp] at hv
      exact nomatch hv
  · subst h
    by_cases hsp : a.cls = ActClass.spotify
    · obtain ⟨_, _, _, _, hp, _⟩ := hwf.1 hsp
      rw [genericFlagsStep_lookup_ne _ _ _ (by decide),
        genericPartyStep_of_none a _ hp,
        genericAssetsStep_lookup_ne _ _ _ (by decide),
        genericStateStep_eq,
        genericDetailsStep_lookup_ne _ _ _ (by decide)]
      exact hts
    · rw [typeStage_lookup_party a hsp] at hv
      exact nomatch hv
  · subst h
    rw [typeStage_lookup_flags a] at hv
    exact nomatch hv

/-- Witness for C3: the game activity with details produced by its branch
keeps that value through the generic fill. -/
theorem generic_fill_never_overwrites_witness :
    WFActivity gameW
    ∧ lookupKey (typeStage gameW).1 "details" = some (J.str "Move 4")
    ∧ lookupKey (format_activity gameW) "details" = some (J.str "Move 4") := by
  have hwf : WFActivity gameW := by
    constructor
    · intro h
      exact nomatch h
    · intro h
      exact nomatch h
  refine ⟨hwf, rfl, ?_⟩
  exact generic_fill_never_overwrites gameW hwf "details" (Or.inl rfl)
    (J.str "Move 4") rfl

/-! ## C5: the REST query service -/

/-- Counterexample to C5 as stated.  With identity 7 absent from the
cache but present in a guild member list with live status `online`, the
cache-miss path of `get_user_presence` returns success with that live
snapshot: its `discord_status` is `"online"`, so the returned data is not
a normalized offline snapshot. -/
theorem rest_lookup_miss_can_be_online_cex :
    get_user_presence botStateOnline [] "7"
      = QueryResult.ok (J.obj [("success", J.bool true),
          ("data", J.obj (online_presence memberW))])
    ∧ lookupKey (online_presence memberW) "discord_status" = some (J.str "online")
    ∧ J.str "online" ≠ J.str "offline" := by
  refine ⟨rfl, rfl, ?_⟩
  intro h
  injection h with h2
  exact absurd h2 (by decide)

/-- C5 (amended): `get_user_presence` rejects a malformed id with a 400
validation error; returns a truthy cached snapshot under success; on a
cache miss consults the directory — user cache by id, then the guild
member lists — and, when any record exists, returns success with the
snapshot the normalizer builds from those records, which is the
normalized offline snapshot carrying the identity display info whenever
the member record is absent or offline (a live member record yields its
live status instead); with no record at all it reports 404 NotFound. -/
theorem query_service_lookup_spec (bs : BotState) (cache : Cache) (s : String) :
    (parseId s = none →
       get_user_presence bs cache s
         = QueryResult.httpError 400 "User ID must be an integer.")
    ∧ (∀ uid : Int, parseId s = some uid →
        (∀ d : Dict, getK cache uid = some d → d ≠ [] →
           get_user_presence bs cache s
             = QueryResult.ok (J.obj [("success", J.bool true), ("data", J.obj d)]))
        ∧ ((getK cache uid).getD [] = [] →
            (find_member_in_guilds bs.guilds uid = none → get_user bs uid = none →
               get_user_presence bs cache s
                 = QueryResult.httpError 404 "User not found or bot cannot access user.")
            ∧ ((find_member_in_guilds bs.guilds uid).isSome ∨ (get_user bs uid).isSome →
               get_user_presence bs cache s
                 = QueryResult.ok (J.obj [("success", J.bool true),
                     ("data", J.obj (format_presence (find_member_in_guilds bs.guilds uid)
                                      (get_user bs uid)))]))
            ∧ (∀ m : SrcMember, find_member_in_guilds bs.guilds uid = some m →
                 m.status = "offline" →
                 get_user_presence bs cache s
                   = QueryResult.ok (J.obj [("success", J.bool true),
                       ("data", J.obj (offline_presence (some m.user)))]))
            ∧ (find_member_in_guilds bs.guilds uid = none →
                 ∀ u : SrcUser, get_user bs uid = some u →
                 get_user_presence bs cache s
                   = QueryResult.ok (J.obj [("success", J.bool true),
                       ("data", J.obj (offline_presence (some u)))])))) := by
  constructor
  · intro hp
    simp [get_user_presence, hp]
  · intro uid hp
    constructor
    · intro d hd hne
      have hni : d.isEmpty = false := by
        cases d with
        | nil => exact absurd rfl hne
        | cons x xs => rfl
      simp [get_user_presence, hp, hd, hni]
    · intro hmiss
      refine ⟨?_, ?_, ?_, ?_⟩
      · intro hm hu
        simp [get_user_presence, hp, hmiss, hm, hu]
      · intro hfound
        have hsome : ((find_member_in_guilds bs.guilds uid).isSome
            || (get_user bs uid).isSome) = true := by
          rcases hfound with h | h <;> simp [h]
        simp [get_user_presence, hp, hmiss, hsome]
      · intro m hm hoff
        have hsome : ((find_member_in_guilds bs.guilds uid).isSome
            || (get_user bs uid).isSome) = true := by simp [hm]
        simp [get_user_presence, hp, hmiss, hsome, hm, format_presence, hoff]
      · intro hm u hu
        have hsome : ((find_member_in_guilds bs.guilds uid).isSome
            || (get_user bs uid).isSome) = true := by simp [hu]
        simp [get_user_presence, hp, hmiss, hsome, hm, hu, format_presence]

/-- Witness for C5 (amended) at a concrete input: identity 7 is uncached
and its only directory record is an offline guild member, so the REST
lookup returns success with the offline snapshot for that identity. -/
theorem query_service_lookup_spec_witness :
    parseId "7" = some 7
    ∧ (getK ([] : Cache) 7).getD [] = []
    ∧ find_member_in_guilds botStateOff.guilds 7 = some memberOffW
    ∧ memberOffW.status = "offline"
    ∧ get_user_presence botStateOff [] "7"
        = QueryResult.ok (J.obj [("success", J.bool true),
            ("data", J.obj (offline_presence (some userW)))]) := by
  refine ⟨rfl, rfl, rfl, rfl, ?_⟩
  exact ((query_service_lookup_spec botStateOff [] "7").2 7 rfl).2 rfl
    |>.2.2.1 memberOffW rfl rfl

/-! ## C10: unknown identities on the WebSocket path -/

/-- C10: newly subscribing an identity that is neither cached nor
resolvable to any user or member record still produces exactly one
INIT_STATE event, whose snapshot is the offline fallback built around the
sentinel identity (id `unknown`, username `unknown`, discriminator
`0000`, no avatar, bot false, zero flags); the REST query path, on the
same state, reports 404 NotFound instead. -/
theorem ws_unknown_id_sentinel_init_state (bs : BotState) (cache : Cache)
    (current : List Int) (uid : Int) (s : String)
    (hp : parseId s = some uid)
    (hc : (getK cache uid).getD [] = [])
    (hu : get_user bs uid = none)
    (hm : find_member_in_guilds bs.guilds uid = none)
    (hcur : uid ∉ current) :
    (initializeHandler bs cache current [s]).2
      = [eventEnvelope "INIT_STATE" (J.obj
          [("discord_user", J.obj
              [("id", J.str "unknown"), ("username", J.str "unknown"),
               ("discriminator", J.str "0000"), ("avatar", J.null),
               ("bot", J.bool false), ("public_flags", J.num 0)]),
           ("discord_status", J.str "offline"),
           ("activities", J.arr []),
           ("client_status", J.obj []),
           ("active_on_discord_mobile", J.bool false),
           ("active_on_discord_desktop", J.bool false),
           ("active_on_discord_web", J.bool false),
           ("spotify", J.null)])]
    ∧ get_user_presence bs cache s
        = QueryResult.httpError 404 "User not found or bot cannot access user." := by
  constructor
  · have hinit : init_state_for bs cache uid = offline_presence none := by
      simp [init_state_for, hc, hm, hu, format_presence]
    simp [initializeHandler, parse_subscribe_ids, subIdsLoop, hp, hcur, hinit,
      offline_presence, userDict]
  · simp [get_user_presence, hp, hc, hm, hu]

/-- Witness for C10: identity 5 with an empty cache and an empty
directory. -/
theorem ws_unknown_id_sentinel_init_state_witness :
    parseId "5" = some 5
    ∧ (getK ([] : Cache) 5).getD [] = []
    ∧ get_user botStateEmpty 5 = none
    ∧ find_member_in_guilds botStateEmpty.guilds 5 = none
    ∧ (5 : Int) ∉ ([] : List Int)
    ∧ (initializeHandler botStateEmpty [] [] ["5"]).2
        = [eventEnvelope "INIT_STATE" (J.obj
            [("discord_user", J.obj
                [("id", J.str "unknown"), ("username", J.str "unknown"),
                 ("discriminator", J.str "0000"), ("avatar", J.null),
                 ("bot", J.bool false), ("public_flags", J.num 0)]),
             ("discord_status", J.str "offline"),
             ("activities", J.arr []),
             ("client_status", J.obj []),
             ("active_on_discord_mobile", J.bool false),
             ("active_on_discord_desktop", J.bool false),
             ("active_on_discord_web", J.bool false),
             ("spotify", J.null)])]
    ∧ get_user_presence botStateEmpty [] "5"
        = QueryResult.httpError 404 "User not found or bot cannot access user." := by
  refine ⟨rfl, rfl, rfl, rfl, by simp, ?_, ?_⟩
  · exact (ws_unknown_id_sentinel_init_state botStateEmpty [] [] 5 "5"
      rfl rfl rfl rfl (by simp)).1
  · exact (ws_unknown_id_sentinel_init_state botStateEmpty [] [] 5 "5"
      rfl rfl rfl rfl (by simp)).2

/-! ## C2: INITIALIZE replaces subscriptions and sends one INIT_STATE per
newly subscribed id -/

theorem addNew_mem (l : List Int) (n x : Int) :
    (x ∈ (if n ∈ l then l else l ++ [n])) ↔ x ∈ l ∨ x = n := by
  split_ifs with hn
  · constructor
    · exact Or.inl
    · rintro (h | rfl)
      · exact h
      · exact hn
  · simp [List.mem_append]

theorem addNew_nodup (l : List Int) (n : Int) (h : l.Nodup) :
    (if n ∈ l then l else l ++ [n]).Nodup := by
  split_ifs with hn
  · exact h
  · simp [List.nodup_append, h, hn]

theorem subIdsLoop_nodup (current : List Int) (payload : List String)
    (acc : List Int × List Int) (h1 : acc.1.Nodup) (h2 : acc.2.Nodup) :
    (subIdsLoop current payload acc).1.Nodup
    ∧ (subIdsLoop current payload acc).2.Nodup := by
  induction payload generalizing acc with
  | nil => exact ⟨h1, h2⟩
  | cons s rest ih =>
      cases hps : parseId s with
      | none => simpa [subIdsLoop, hps] using ih acc h1 h2
      | some n =>
          have ha1 : (if n ∈ acc.1 then acc.1 else acc.1 ++ [n]).Nodup :=
            addNew_nodup _ _ h1
          have ha2 : (if n ∈ current then acc.2
              else if n ∈ acc.2 then acc.2 else acc.2 ++ [n]).Nodup := by
            split_ifs with hcur hacc
            · exact h2
            · exact h2
            · simp [List.nodup_append, h2, hacc]
          simpa [subIdsLoop, hps] using
            ih ((if n ∈ acc.1 then acc.1 else acc.1 ++ [n],
                 if n ∈ current then acc.2
                 else if n ∈ acc.2 then acc.2 else acc.2 ++ [n])) ha1 ha2

theorem subIdsLoop_mem (current : List Int) (payload : List String)
    (acc : List Int × List Int) (x : Int) :
    (x ∈ (subIdsLoop current payload acc).1
       ↔ x ∈ acc.1 ∨ ∃ s ∈ payload, parseId s = some x)
    ∧ (x ∈ (subIdsLoop current payload acc).2
       ↔ x ∈ acc.2 ∨ ((∃ s ∈ payload, parseId s = some x) ∧ x ∉ current)) := by
  induction payload generalizing acc with
  | nil => simp [subIdsLoop]
  | cons s rest ih =>
      cases hps : parseId s with
      | none =>
          constructor
          · rw [show subIdsLoop current (s :: rest) acc
                = subIdsLoop current rest acc from by simp [subIdsLoop, hps]]
            rw [(ih acc).1]
            simp [hps]
          · rw [show subIdsLoop current (s :: rest) acc
                = subIdsLoop current rest acc from by simp [subIdsLoop, hps]]
            rw [(ih acc).2]
            simp [hps]
      | some n =>
          have hstep : subIdsLoop current (s :: rest) acc
              = subIdsLoop current rest
                  ((if n ∈ acc.1 then acc.1 else acc.1 ++ [n],
                    if n ∈ current then acc.2
                    else if n ∈ acc.2 then acc.2 else acc.2 ++ [n])) := by
            simp [subIdsLoop, hps]
          constructor
          · rw [hstep, (ih _).1]
            simp only [addNew_mem]
            constructor
            · rintro ((h | rfl) | ⟨t, ht, hpt⟩)
              · exact Or.inl h
              · exact Or.inr ⟨s, List.mem_cons_self s rest, hps⟩
              · exact Or.inr ⟨t, List.mem_cons_of_mem s ht, hpt⟩
            · rintro (h | ⟨t, ht, hpt⟩)
              · exact Or.inl (Or.inl h)
              · rcases List.mem_cons.1 ht with rfl | ht'
                · rw [hps] at hpt
                  exact Or.inl (Or.inr (Option.some.inj hpt).symm)
                · exact Or.inr ⟨t, ht', hpt⟩
          · rw [hstep, (ih _).2]
            by_cases hcur : n ∈ current
            · simp only [hcur, if_true]
              constructor
              · rintro (h | ⟨⟨t, ht, hpt⟩, hx⟩)
                · exact Or.inl h
                · exact Or.inr ⟨⟨t, List.mem_cons_of_mem s ht, hpt⟩, hx⟩
              · rintro (h | ⟨⟨t, ht, hpt⟩, hx⟩)
                · exact Or.inl h
                · rcases List.mem_cons.1 ht with rfl | ht'
                  · rw [hps] at hpt
                    obtain rfl := (Option.some.inj hpt)
                    exact absurd hcur hx
                  · exact Or.inr ⟨⟨t, ht', hpt⟩, hx⟩
            · simp only [hcur, if_false]
              constructor
              · rintro (h | ⟨⟨t, ht, hpt⟩, hx⟩)
                · rcases (addNew_mem acc.2 n x).1 h with h' | rfl
                  · exact Or.inl h'
                  · exact Or.inr ⟨⟨s, List.mem_cons_self s rest, hps⟩, hcur⟩
                · exact Or.inr ⟨⟨t, List.mem_cons_of_mem s ht, hpt⟩, hx⟩
              · rintro (h | ⟨⟨t, ht, hpt⟩, hx⟩)
                · exact Or.inl ((addNew_mem acc.2 n x).2 (Or.inl h))
                · rcases List.mem_cons.1 ht with rfl | ht'
                  · rw [hps] at hpt
                    obtain rfl := (Option.some.inj hpt)
                    exact Or.inl ((addNew_mem acc.2 n n).2 (Or.inr rfl))
                  · exact Or.inr ⟨⟨t, ht', hpt⟩, hx⟩

/-- Counterexample to C2 as stated.  INITIALIZE for uncached identity 7,
whose guild member record is live (`online`), produces an INIT_STATE
carrying that online snapshot — not the offline-fallback snapshot: its
`discord_status` is `"online"`. -/
theorem init_state_miss_can_be_online_cex :
    (initializeHandler botStateOnline [] [] ["7"]).2
      = [eventEnvelope "INIT_STATE" (J.obj (online_presence memberW))]
    ∧ lookupKey (online_presence memberW) "discord_status" = some (J.str "online")
    ∧ J.str "online" ≠ J.str "offline" := by
  refine ⟨rfl, rfl, ?_⟩
  intro h
  injection h with h2
  exact absurd h2 (by decide)

/-- C2 (amended): processing an INITIALIZE message replaces the
subscription set wholesale with the set of parseable ids of the payload
(dropped ids are gone, unparseable entries are skipped non-fatally, the
result is duplicate-free), and exactly one INIT_STATE event is built per
id newly present relative to the previous set — a re-listed id triggers
none; in particular INITIALIZE[1,2] then INITIALIZE[2,3] leaves exactly
the subscriptions 2 and 3 with only 3 newly subscribed.  Each INIT_STATE
carries the truthy cached snapshot on a cache hit and, on a miss, the
snapshot the normalizer builds from the best directory record — the
offline fallback whenever that record is absent or offline. -/
theorem initialize_full_replace_spec (bs : BotState) (cache : Cache)
    (current : List Int) (payload : List String) :
    (∀ x : Int, x ∈ (parse_subscribe_ids current payload).1
       ↔ ∃ s ∈ payload, parseId s = some x)
    ∧ (parse_subscribe_ids current payload).1.Nodup
    ∧ (∀ x : Int, x ∈ (parse_subscribe_ids current payload).2
       ↔ (∃ s ∈ payload, parseId s = some x) ∧ x ∉ current)
    ∧ (parse_subscribe_ids current payload).2.Nodup
    ∧ (initializeHandler bs cache current payload).1
        = (parse_subscribe_ids current payload).1
    ∧ (initializeHandler bs cache current payload).2
        = (parse_subscribe_ids current payload).2.map
            (fun i => eventEnvelope "INIT_STATE" (J.obj (init_state_for bs cache i)))
    ∧ (∀ (i : Int) (d : Dict), getK cache i = some d → d ≠ [] →
        init_state_for bs cache i = d)
    ∧ (∀ i : Int, (getK cache i).getD [] = [] →
        find_member_in_guilds bs.guilds i = none →
        init_state_for bs cache i = offline_presence (get_user bs i))
    ∧ (∀ (i : Int) (m : SrcMember), (getK cache i).getD [] = [] →
        find_member_in_guilds bs.guilds i = some m → m.status = "offline" →
        init_state_for bs cache i = offline_presence (some m.user))
    ∧ (parse_subscribe_ids ([] : List Int) ["1", "2"]).1 = [1, 2]
    ∧ (parse_subscribe_ids [1, 2] ["2", "3"]).1 = [2, 3]
    ∧ (parse_subscribe_ids [1, 2] ["2", "3"]).2 = [3] := by
  refine ⟨?_, ?_, ?_, ?_, rfl, rfl, ?_, ?_, ?_, by decide, by decide, by decide⟩
  · intro x
    simpa using (subIdsLoop_mem current payload ([], []) x).1
  · exact (subIdsLoop_nodup current payload ([], []) (by simp) (by simp)).1
  · intro x
    simpa using (subIdsLoop_mem current payload ([], []) x).2
  · exact (subIdsLoop_nodup current payload ([], []) (by simp) (by simp)).2
  · intro i d hd hne
    have hni : d.isEmpty = false := by
      cases d with
      | nil => exact absurd rfl hne
      | cons x xs => rfl
    simp [init_state_for, hd, hni]
  · intro i hmiss hm
    simp [init_state_for, hmiss, hm, format_presence]
  · intro i m hmiss hm hoff
    simp [init_state_for, hmiss, hm, format_presence, hoff]

/-- Witness for C2 (amended) at the concrete inputs of the claim:
INITIALIZE[1,2] followed by INITIALIZE[2,3] against the empty directory
leaves subscriptions [2, 3] and builds exactly one INIT_STATE, for id 3. -/
theorem initialize_full_replace_spec_witness :
    (initializeHandler botStateEmpty [] [] ["1", "2"]).1 = [1, 2]
    ∧ (initializeHandler botStateEmpty [] [1, 2] ["2", "3"]).1 = [2, 3]
    ∧ (initializeHandler botStateEmpty [] [1, 2] ["2", "3"]).2
        = [eventEnvelope "INIT_STATE" (J.obj (init_state_for botStateEmpty [] 3))] := by
  refine ⟨?_, ?_, ?_⟩
  · rw [(initialize_full_replace_spec botStateEmpty [] [] ["1", "2"]).2.2.2.2.1]
    decide
  · rw [(initialize_full_replace_spec botStateEmpty [] [1, 2] ["2", "3"]).2.2.2.2.1]
    decide
  · rw [(initialize_full_replace_spec botStateEmpty [] [1, 2] ["2", "3"]).2.2.2.2.2.1]
    rw [show (parse_subscribe_ids [1, 2] ["2", "3"]).2 = [3] from by decide]
    rfl

/-! ## C1: broadcast fan-out -/

theorem broadcastPass_sends (sendOk : Conn → Bool) (uid : Int) (msg : J)
    (reg : Registry) :
    (broadcastPass sendOk uid msg reg).1
      = (reg.filter (fun p => decide (uid ∈ p.2))).map
          (fun p => BAction.send p.1 msg (sendOk p.1)) := by
  induction reg with
  | nil => rfl
  | cons p rest ih =>
      by_cases h : uid ∈ p.2 <;> simp [broadcastPass, h, ih]

theorem broadcastPass_dead (sendOk : Conn → Bool) (uid : Int) (msg : J)
    (reg : Registry) :
    (broadcastPass sendOk uid msg reg).2
      = (reg.filter (fun p => decide (uid ∈ p.2) && !sendOk p.1)).map Prod.fst := by
  induction reg with
  | nil => rfl
  | cons p rest ih =>
      by_cases h : uid ∈ p.2
      · by_cases hok : sendOk p.1 <;> simp [broadcastPass, h, hok, ih]
      · simp [broadcastPass, h, ih]

theorem delConn_eq_filter (reg : Registry) (c : Conn)
    (h : (reg.map Prod.fst).Nodup) :
    delConn reg c = reg.filter (fun p => !decide (p.1 = c)) := by
  induction reg with
  | nil => rfl
  | cons p rest ih =>
      simp only [List.map_cons, List.nodup_cons] at h
      by_cases hp : p.1 = c
      · have hrest : rest.filter (fun q => !decide (q.1 = c)) = rest := by
          rw [List.filter_eq_self]
          intro q hq
          have hq1 : q.1 ≠ c := by
            intro he
            apply h.1
            rw [hp, ← he]
            exact List.mem_map_of_mem Prod.fst hq
          simp [hq1]
        simp [delConn, hp, hrest]
      · simp [delConn, hp, ih h.2]

theorem delConn_keys_sublist (reg : Registry) (c : Conn) :
    ((delConn reg c).map Prod.fst).Sublist (reg.map Prod.fst) := by
  induction reg with
  | nil => simp [delConn]
  | cons p rest ih =>
      by_cases hp : p.1 = c
      · simp only [delConn, hp, if_pos rfl, List.map_cons]
        exact List.sublist_cons_self _ _
      · simp only [delConn, hp, if_neg hp, List.map_cons]
        exact ih.cons₂ p.1

theorem removeDeadConns_eq_filter (reg : Registry) (dead : List Conn)
    (h : (reg.map Prod.fst).Nodup) :
    removeDeadConns reg dead = reg.filter (fun p => !decide (p.1 ∈ dead)) := by
  induction dead generalizing reg with
  | nil =>
      have : reg.filter (fun p => !decide (p.1 ∈ ([] : List Conn))) = reg := by
        rw [List.filter_eq_self]
        intro q hq
        simp
      rw [this]
      rfl
  | cons c cs ih =>
      have hstep : removeDeadConns reg (c :: cs) = removeDeadConns (delConn reg c) cs := rfl
      rw [hstep, ih (delConn reg c)
        (List.Nodup.sublist (delConn_keys_sublist reg c) h)]
      rw [delConn_eq_filter reg c h, List.filter_filter]
      apply List.filter_congr
      intro x hx
      by_cases h1 : x.1 = c <;> by_cases h2 : x.1 ∈ cs <;>
        simp [h1, h2, List.mem_cons]

/-- C1: on a cache update for identity `uid` with truthy snapshot data,
the broadcast builds one PRESENCE_UPDATE envelope and serializes it
exactly once (the single `serialize` action), attempts exactly one send of
that same serialized message per (connection, idSet) pair of the registry
snapshot whose idSet contains `uid` (pairs not subscribed get no send),
marks exactly the failed sends dead, and after the pass removes exactly
the dead connections from the registry. -/
theorem broadcast_fanout_spec (reg : Registry) (sendOk : Conn → Bool)
    (uid : Int) (d : Dict) (hd : d.isEmpty = false)
    (hn : (reg.map Prod.fst).Nodup) :
    (notify_subscribed_clients reg sendOk uid d).1
      = BAction.serialize (eventEnvelope "PRESENCE_UPDATE" (J.obj d))
          :: ((reg.filter (fun p => decide (uid ∈ p.2))).map
                (fun p => BAction.send p.1
                  (eventEnvelope "PRESENCE_UPDATE" (J.obj d)) (sendOk p.1))
              ++ ((reg.filter (fun p => decide (uid ∈ p.2) && !sendOk p.1)).map
                    Prod.fst).map BAction.removeDead)
    ∧ (notify_subscribed_clients reg sendOk uid d).2
      = reg.filter (fun p => !(decide (uid ∈ p.2) && !sendOk p.1)) := by
  constructor
  · simp [notify_subscribed_clients, hd, broadcastPass_sends, broadcastPass_dead]
  · have hdead := broadcastPass_dead sendOk uid
      (eventEnvelope "PRESENCE_UPDATE" (J.obj d)) reg
    simp only [notify_subscribed_clients, hd, Bool.false_eq_true, if_false, hdead]
    rw [removeDeadConns_eq_filter reg _ hn]
    apply List.filter_congr
    intro x hx
    congr 1
    by_cases hq : (decide (uid ∈ x.2) && !sendOk x.1) = true
    · have hmem : x.1 ∈ (reg.filter
          (fun p => decide (uid ∈ p.2) && !sendOk p.1)).map Prod.fst :=
        List.mem_map_of_mem Prod.fst (List.mem_filter.2 ⟨hx, hq⟩)
      simp [hmem, hq]
    · have hmem : x.1 ∉ (reg.filter
          (fun p => decide (uid ∈ p.2) && !sendOk p.1)).map Prod.fst := by
        intro hmem
        obtain ⟨q, hq', hqe⟩ := List.mem_map.1 hmem
        have hqreg := (List.mem_filter.1 hq').1
        have hqp := (List.mem_filter.1 hq').2
        have hqx : q = x := List.inj_on_of_nodup_map hn hqreg hx hqe
        rw [hqx] at hqp
        exact hq hqp
      simp only [Bool.not_eq_true] at hq
      simp [hmem, hq]

/-- Witness for C1: three connections, the first two subscribed to id 7
and the second failing its send; the trace has one serialization, one send
per subscribed pair, and the failed connection is removed. -/
theorem broadcast_fanout_spec_witness :
    (([("s", J.null)] : Dict).isEmpty = false)
    ∧ ((([(1, [7]), (2, [7]), (3, [9])] : Registry).map Prod.fst).Nodup)
    ∧ (notify_subscribed_clients [(1, [7]), (2, [7]), (3, [9])]
          (fun c => c != 2) 7 [("s", J.null)]).1
        = BAction.serialize (eventEnvelope "PRESENCE_UPDATE" (J.obj [("s", J.null)]))
            :: [BAction.send 1 (eventEnvelope "PRESENCE_UPDATE" (J.obj [("s", J.null)])) true,
                BAction.send 2 (eventEnvelope "PRESENCE_UPDATE" (J.obj [("s", J.null)])) false,
                BAction.removeDead 2]
    ∧ (notify_subscribed_clients [(1, [7]), (2, [7]), (3, [9])]
          (fun c => c != 2) 7 [("s", J.null)]).2
        = [(1, [7]), (3, [9])] := by
  have h := broadcast_fanout_spec [(1, [7]), (2, [7]), (3, [9])]
    (fun c => c != 2) 7 [("s", J.null)] rfl (by decide)
  refine ⟨rfl, by decide, ?_, ?_⟩
  · rw [h.1]
    rfl
  · rw [h.2]
    rfl

/-! ## C8: the connection handler teardown -/

theorem setSubs_not_mem (reg : Registry) (c : Conn) (v : List Int)
    (h : c ∉ reg.map Prod.fst) : setSubs reg c v = reg ++ [(c, v)] := by
  induction reg with
  | nil => rfl
  | cons p rest ih =>
      simp only [List.map_cons, List.mem_cons] at h
      push_neg at h
      have hp : p.1 ≠ c := fun he => h.1 he.symm
      simp [setSubs, hp, ih h.2]

theorem setSubs_append_self (reg : Registry) (c : Conn) (v w : List Int)
    (h : c ∉ reg.map Prod.fst) :
    setSubs (reg ++ [(c, v)]) c w = reg ++ [(c, w)] := by
  induction reg with
  | nil => simp [setSubs]
  | cons p rest ih =>
      simp only [List.map_cons, List.mem_cons] at h
      push_neg at h
      have hp : p.1 ≠ c := fun he => h.1 he.symm
      simp [setSubs, hp, ih h.2]

theorem run_ws_loop_shape (c : Conn) (payloads : List (List String))
    (reg : Registry) (v : List Int) (h : c ∉ reg.map Prod.fst) :
    ∃ w, run_ws_loop c (reg ++ [(c, v)]) payloads = reg ++ [(c, w)] := by
  induction payloads generalizing v with
  | nil => exact ⟨v, rfl⟩
  | cons pl rest ih =>
      rw [show run_ws_loop c (reg ++ [(c, v)]) (pl :: rest)
          = run_ws_loop c (setSubs (reg ++ [(c, v)]) c
              (parse_subscribe_ids (getSubs (reg ++ [(c, v)]) c) pl).1) rest from rfl]
      rw [setSubs_append_self reg c v _ h]
      exact ih _

theorem delConn_not_mem (reg : Registry) (c : Conn)
    (h : c ∉ reg.map Prod.fst) : delConn reg c = reg := by
  induction reg with
  | nil => rfl
  | cons p rest ih =>
      simp only [List.map_cons, List.mem_cons] at h
      push_neg at h
      have hp : p.1 ≠ c := fun he => h.1 he.symm
      simp [delConn, hp, ih h.2]

theorem delConn_append (reg : Registry) (c : Conn) (w : List Int)
    (h : c ∉ reg.map Prod.fst) : delConn (reg ++ [(c, w)]) c = reg := by
  induction reg with
  | nil => simp [delConn]
  | cons p rest ih =>
      simp only [List.map_cons, List.mem_cons] at h
      push_neg at h
      have hp : p.1 ≠ c := fun he => h.1 he.symm
      simp [delConn, hp, ih h.2]

/-- C8: on every exit path of the connection handler — idle timeout,
transport failure, INIT_STATE send failure, or any unexpected fault — the
`finally` teardown runs exactly once: the connection's registry entry is
gone afterwards (the final registry equals the pre-connection registry,
so entries exist exactly for currently-open connections) and the
transport is force-closed with the abnormal-closure code 1011 exactly
when it is still open; when the initial HELLO send fails, no registry
entry is ever created and the handler goes straight to teardown. -/
theorem handler_teardown_spec (reg : Registry) (c : Conn) (helloOk : Bool)
    (payloads : List (List String)) (e : LoopExit) (stillOpen : Bool)
    (h : c ∉ reg.map Prod.fst) :
    ((websocket_endpoint reg c helloOk payloads e stillOpen).1.count
        HAction.teardownEntered = 1)
    ∧ (websocket_endpoint reg c helloOk payloads e stillOpen).2 = reg
    ∧ c ∉ ((websocket_endpoint reg c helloOk payloads e stillOpen).2.map Prod.fst)
    ∧ (helloOk = false →
        HAction.registered ∉ (websocket_endpoint reg c helloOk payloads e stillOpen).1)
    ∧ (stillOpen = true ↔
        HAction.forceClosed 1011 ∈ (websocket_endpoint reg c helloOk payloads e stillOpen).1)
    ∧ (∀ n : Nat,
        HAction.forceClosed n ∈ (websocket_endpoint reg c helloOk payloads e stillOpen).1 →
        n = 1011) := by
  obtain ⟨w, hw⟩ := run_ws_loop_shape c payloads reg [] h
  cases helloOk with
  | false =>
      have hcont : ((reg.map Prod.fst).contains c) = false := by simpa using h
      have hdel : delConn reg c = reg := delConn_not_mem reg c h
      cases stillOpen <;>
        simp [websocket_endpoint, handlerFinallyBlock, hcont, hdel, h,
          List.count_cons]
  | true =>
      have hsub : setSubs reg c [] = reg ++ [(c, [])] := setSubs_not_mem reg c [] h
      have hcont2 : (((reg ++ [(c, w)]).map Prod.fst).contains c) = true := by simp
      have hdel2 : delConn (reg ++ [(c, w)]) c = reg := delConn_append reg c w h
      cases stillOpen <;>
        simp [websocket_endpoint, handlerFinallyBlock, hsub, hw, hcont2, hdel2, h,
          List.count_cons]

/-- Witness for C8: a fresh connection 4 against a registry holding
connection 1; the handler subscribes via one INITIALIZE and exits on idle
timeout with the transport still open. -/
theorem handler_teardown_spec_witness :
    ((4 : Conn) ∉ ([(1, [7])] : Registry).map Prod.fst)
    ∧ (websocket_endpoint [(1, [7])] 4 true [["7"]] LoopExit.idleTimeout true).1.count
        HAction.teardownEntered = 1
    ∧ (websocket_endpoint [(1, [7])] 4 true [["7"]] LoopExit.idleTimeout true).2
        = [(1, [7])]
    ∧ HAction.forceClosed 1011
        ∈ (websocket_endpoint [(1, [7])] 4 true [["7"]] LoopExit.idleTimeout true).1 := by
  have h := handler_teardown_spec [(1, [7])] 4 true [["7"]] LoopExit.idleTimeout true
    (by decide)
  exact ⟨by decide, h.1, h.2.1, h.2.2.2.2.1.mp rfl⟩

end PresenceExpose
